import Mathlib

/-!
Verification of the `listings` app of the travel-booking API
(`alx_travel_app/listings/views.py` and `urls.py`) against its
natural-language specification.

The request-handling layer is embedded shallowly: each viewset method of
`views.py` becomes a Lean function over explicit data-store and request
state; HTTP responses and Python exceptions become an explicit result type.
The entity records themselves (`models.py`), the serializer save semantics
(`serializers.py`) and the `IsOwnerOrReadOnly` predicate (`permissions.py`)
are not part of the two source files; where a claim needs them they are
modelled from the specification, and each such definition says so in its
doc comment.
-/

namespace AlxTravel

/-- Modelled from the spec: `models.py` is absent from the sources.
Spec section 3 gives the status enum of a Booking as
PENDING, CONFIRMED, CANCELLED (`Booking.BookingStatus` in the code). -/
inductive BookingStatus where
  | PENDING
  | CONFIRMED
  | CANCELLED
deriving DecidableEq, Repr

/-- Modelled from the spec: `models.py` is absent from the sources.
Spec section 3: a Listing has a unique slug (stable external identifier),
an owner (User reference) and descriptive fields; users are identified by
their id, so a User reference is a `Nat`. -/
structure Listing where
  id : Nat
  slug : String
  owner : Nat
deriving DecidableEq, Repr

/-- Modelled from the spec: `models.py` is absent from the sources.
Spec section 3: a Booking has a guest (User reference), a status enum and
a listing reference. -/
structure Booking where
  id : Nat
  guest : Nat
  listing : Nat
  status : BookingStatus
deriving DecidableEq, Repr

/-- Modelled from the spec: `models.py` is absent from the sources.
Spec section 3: a Review has an author (User reference), a listing
reference and content fields. -/
structure Review where
  id : Nat
  author : Nat
  listing : Nat
  content : String
deriving DecidableEq, Repr

/-- Outcome of one controller call: either an HTTP response whose body is a
single-key JSON object, or an uncaught Python exception (which the hosting
framework surfaces as a server error, not as a normal response). -/
inductive HttpResult where
  | response (code : Nat) (bodyKey : String) (bodyValue : String)
  | pythonError (exn : String) (detail : String)
deriving DecidableEq, Repr

/-- Python dict subscript `kwargs[key]` over a literal association list:
`some` the value when the key is present, `none` standing for the raised
KeyError when it is absent. -/
def dictGet (kwargs : List (String × String)) (key : String) : Option String :=
  (kwargs.find? (fun kv => kv.1 == key)).map (fun kv => kv.2)

/-! ## BookingViewset (views.py lines 60 to 86) -/

/-- `BookingViewset.get_queryset` from views.py:
`return Booking.objects.filter(guest=self.request.user)` -- the data store
is passed explicitly as the list of all stored bookings. -/
def BookingViewset.get_queryset (db : List Booking) (request_user : Nat) :
    List Booking :=
  db.filter (fun b => b.guest == request_user)

/-- The framework resolution `self.get_object()` for a detail route of
`BookingViewset`: the object is looked up by pk inside `get_queryset`; a pk
that is filtered out of the queryset yields Http404 (`none`), which is the
same outcome as a pk that matches nothing at all -- never a 403. -/
def BookingViewset.get_object (db : List Booking) (request_user : Nat)
    (pk : Nat) : Option Booking :=
  (BookingViewset.get_queryset db request_user).find? (fun b => b.id == pk)

/-- `BookingViewset.cancel` from views.py lines 78 to 86, applied to the
booking that `self.get_object()` resolved. The pair is (result, the record
as it stands in the data store after the call).

Source fidelity notes, both preserved on purpose:
* the line `booking.status == Booking.BookingStatus.CANCELLED` is an
  equality comparison whose boolean value is discarded -- not an
  assignment -- so the following `booking.save()` persists the record with
  its status unchanged;
* the failure branch builds its Response with
  `status.HTT_400_BAD_REQUEST`; the rest_framework `status` module defines
  no such attribute, so evaluating that argument raises AttributeError
  before any Response exists. -/
def BookingViewset.cancel (booking : Booking) : HttpResult × Booking :=
  if booking.status = BookingStatus.CONFIRMED then
    let _discardedComparison := decide (booking.status = BookingStatus.CANCELLED)
    (HttpResult.response 200 "status" "Booking cancelled", booking)
  else
    (HttpResult.pythonError "AttributeError" "HTT_400_BAD_REQUEST", booking)

/-! ## Create pipeline (perform_create overrides, views.py lines 55-57 and 74-76) -/

/-- Client-supplied body of a listing-creation request; `owner` is the
owner value the client tried to supply, when it supplied one. -/
structure ListingInput where
  slug : String
  owner : Option Nat
deriving DecidableEq, Repr

/-- Client-supplied body of a booking-creation request; `guest` is the
guest value the client tried to supply, when it supplied one. -/
structure BookingInput where
  listing : Nat
  status : BookingStatus
  guest : Option Nat
deriving DecidableEq, Repr

/-- Modelled from the spec: `serializers.py` is absent from the sources.
`ListingSerializer.save(owner=...)` creates the record with the keyword
argument overriding any client-supplied owner (spec section 9: forced
field assignment on create is a mandatory pre-persist mutation that cannot
be bypassed by client input). -/
def ListingSerializer.save (newId : Nat) (input : ListingInput)
    (owner_kwarg : Nat) : Listing :=
  { id := newId, slug := input.slug, owner := owner_kwarg }

/-- Modelled from the spec: `serializers.py` is absent from the sources.
`BookingSerializer.save(guest=...)` creates the record with the keyword
argument overriding any client-supplied guest. -/
def BookingSerializer.save (newId : Nat) (input : BookingInput)
    (guest_kwarg : Nat) : Booking :=
  { id := newId, guest := guest_kwarg, listing := input.listing,
    status := input.status }

/-- `ListingViewset.perform_create` from views.py:
`serializer.save(owner=self.request.user)`. -/
def ListingViewset.perform_create (newId : Nat) (input : ListingInput)
    (request_user : Nat) : Listing :=
  ListingSerializer.save newId input request_user

/-- `BookingViewset.perform_create` from views.py:
`serializer.save(guest=self.request.user)`. -/
def BookingViewset.perform_create (newId : Nat) (input : BookingInput)
    (request_user : Nat) : Booking :=
  BookingSerializer.save newId input request_user

/-! ## Permission evaluation -/

/-- The permission classes named in views.py. -/
inductive Perm where
  | AllowAny
  | IsAuthenticated
  | IsAuthenticatedOrReadOnly
  | IsOwnerOrReadOnly
deriving DecidableEq, Repr

/-- rest_framework SAFE_METHODS. -/
def safeMethods : List String := ["GET", "HEAD", "OPTIONS"]

/-- Request-level `has_permission` of each class, as a function of whether
the caller is authenticated and of the HTTP method. `IsOwnerOrReadOnly` is
modelled from the spec: `permissions.py` is absent from the sources, and
spec section 9 gives its predicate as "mutable by principal P iff
P.safe_method OR P == O.owner_field" -- an object-level condition, so at
the request level it imposes no restriction. -/
def Perm.has_permission (p : Perm) (authenticated : Bool)
    (method : String) : Bool :=
  match p with
  | Perm.AllowAny => true
  | Perm.IsAuthenticated => authenticated
  | Perm.IsAuthenticatedOrReadOnly =>
      authenticated || safeMethods.contains method
  | Perm.IsOwnerOrReadOnly => true

/-- Object-level `has_object_permission` of `IsOwnerOrReadOnly`, modelled
from the spec (section 9): object mutable by principal P iff the method is
safe or P equals the object's owner field. -/
def isOwnerOrReadOnlyObject (principal : Nat) (ownerField : Nat)
    (method : String) : Bool :=
  safeMethods.contains method || principal == ownerField

/-- A request passes a permission list iff every class in it grants it
(rest_framework checks all of `get_permissions()`). -/
def permitted (perms : List Perm) (authenticated : Bool)
    (method : String) : Bool :=
  perms.all (fun p => p.has_permission authenticated method)

/-- Modelled from the spec: the project settings module is absent from the
sources and the spec names no DEFAULT_PERMISSION_CLASSES override, so, for
a viewset that declares no `permission_classes` attribute, the framework
default `[AllowAny]` is what `self.permission_classes` resolves to. -/
def defaultPermissionClasses : List Perm := [Perm.AllowAny]

/-! ## ListingViewset (views.py lines 29 to 57) -/

/-- The attribute state of a `ListingViewset` instance that permission
resolution touches. `permission_classes` is the attribute the framework
reads; `ListingViewset` declares none, so it resolves to the default.
`permissions_classes` (note the extra s) is the misspelled attribute that
the source's `get_permissions` assigns; nothing in the framework reads it. -/
structure ListingViewsetState where
  permission_classes : List Perm
  permissions_classes : Option (List Perm)
deriving DecidableEq, Repr

/-- A fresh `ListingViewset` instance: no `permission_classes` in the class
body, hence the framework default; the misspelled attribute not yet set. -/
def ListingViewset.init : ListingViewsetState :=
  { permission_classes := defaultPermissionClasses,
    permissions_classes := none }

/-- `ListingViewset.get_permissions` from views.py lines 43 to 53. The
action-dependent list is assigned to `self.permissions_classes` -- a
misspelling of `permission_classes` -- and `super().get_permissions()`
then instantiates `self.permission_classes`, untouched by the assignment.
Returns (the permission list actually used, the updated instance state). -/
def ListingViewset.get_permissions (self : ListingViewsetState)
    (action : String) : List Perm × ListingViewsetState :=
  let self' :=
    if action = "list" ∨ action = "retrieve" then
      { self with permissions_classes := some [Perm.AllowAny] }
    else
      { self with permissions_classes := some [Perm.IsAuthenticated, Perm.IsOwnerOrReadOnly] }
  (self'.permission_classes, self')

/-- The serializer classes named in views.py. -/
inductive SerializerClass where
  | UserSerializer
  | ListingSerializer
  | ListingDetailSerializer
  | BookingSerializer
  | ReviewSerializer
deriving DecidableEq, Repr

/-- `ListingViewset.get_serializer_class` from views.py lines 33 to 41:
the detail serializer is returned only when `self.action` equals the
literal string "retireve" exactly as written in the source. The
framework's action name for a single-item fetch is "retrieve". -/
def ListingViewset.get_serializer_class (action : String) :
    SerializerClass :=
  if action = "retireve" then SerializerClass.ListingDetailSerializer
  else SerializerClass.ListingSerializer

/-- The class attributes of `ListingViewset` relevant to object lookup, as
written in views.py line 31: the slug configuration is stored under the
misspelled name `lookkup_field`. -/
def ListingViewset.classAttributes : List (String × String) :=
  [("lookkup_field", "slug")]

/-- The framework reads `getattr(view, "lookup_field")`, whose
GenericAPIView default is "pk" when the subclass defines no attribute of
that exact name. -/
def effectiveLookupField (classAttrs : List (String × String)) : String :=
  match dictGet classAttrs "lookup_field" with
  | some v => v
  | none => "pk"

/-- Detail-route object resolution for `ListingViewset`: the URL argument
is matched against the field that `effectiveLookupField` selects. -/
def ListingViewset.get_object (db : List Listing) (urlArg : String) :
    Option Listing :=
  if effectiveLookupField ListingViewset.classAttributes = "slug" then
    db.find? (fun l => l.slug == urlArg)
  else
    db.find? (fun l => toString l.id == urlArg)

/-! ## ReviewViewSet (views.py lines 89 to 104) and the nested route -/

/-- The URL kwargs the nested route of urls.py supplies to `ReviewViewSet`.
urls.py registers `NestedSimpleRouter(router, r"listings", lookup="listing")`;
the nested router names the parent URL kwarg by appending the parent
viewset's effective lookup field to the `lookup` prefix
(`SimpleRouter.get_lookup_regex` called with lookup_prefix `listing_`).
Because `ListingViewset` misspells its attribute as `lookkup_field`, its
effective lookup field is the inherited default `pk`, so the route pattern
is `listings/{listing_pk}/reviews/` and the kwarg name is `listing_pk` --
not the `listing_slug` the comment in urls.py announces. -/
def nestedRouteKwargs (pathSegment : String) : List (String × String) :=
  [("listing_" ++ effectiveLookupField ListingViewset.classAttributes,
    pathSegment)]

/-- The attribute state of a `ReviewViewSet` instance. The class body of
views.py line 95 assigns the permission list to `permission_class` --
missing the trailing s -- so the attribute the framework reads,
`permission_classes`, stays undeclared and resolves to the default. -/
structure ReviewViewSetState where
  permission_classes : List Perm
  permission_class : List Perm
deriving DecidableEq, Repr

/-- A fresh `ReviewViewSet` instance, with the misspelled class attribute
holding the list written in the source. -/
def ReviewViewSet.init : ReviewViewSetState :=
  { permission_classes := defaultPermissionClasses,
    permission_class :=
      [Perm.IsAuthenticatedOrReadOnly, Perm.IsOwnerOrReadOnly] }

/-- `ReviewViewSet` declares no `get_permissions` override, so the
framework instantiates `self.permission_classes`. -/
def ReviewViewSet.get_permissions (self : ReviewViewSetState) : List Perm :=
  self.permission_classes

/-- The slug of the listing a review points to, through the foreign key:
the Django lookup `listing__slug`. -/
def listingSlugOf (listings : List Listing) (r : Review) : Option String :=
  (listings.find? (fun l => l.id == r.listing)).map (fun l => l.slug)

/-- Result of a queryset construction that subscripts `self.kwargs`. -/
inductive QuerysetResult where
  | ok (reviews : List Review)
  | keyError (key : String)
deriving DecidableEq, Repr

/-- `ReviewViewSet.get_queryset` from views.py lines 97 to 99:
`Review.objects.filter(listing__slug=self.kwargs["listing_slug"])`. -/
def ReviewViewSet.get_queryset (listings : List Listing)
    (reviews : List Review) (kwargs : List (String × String)) :
    QuerysetResult :=
  match dictGet kwargs "listing_slug" with
  | none => QuerysetResult.keyError "listing_slug"
  | some slug =>
      QuerysetResult.ok
        (reviews.filter (fun r => listingSlugOf listings r == some slug))

/-- Client-supplied body of a review-creation request; `author` is the
author value the client tried to supply, when it supplied one. -/
structure ReviewInput where
  content : String
  author : Option Nat
deriving DecidableEq, Repr

/-- Result of `ReviewViewSet.perform_create`. -/
inductive CreateReviewResult where
  | created (r : Review)
  | keyError (key : String)
  | doesNotExist
deriving DecidableEq, Repr

/-- `ReviewViewSet.perform_create` from views.py lines 101 to 104:
`listing = Listing.objects.get(slug=self.kwargs["listing<-slug"])` -- the
subscript key contains the stray characters `<-` exactly as in the
source -- then `serializer.save(author=self.request.user, listing=listing)`
(the save-keyword override is modelled from the spec as for the other
serializers; `serializers.py` is absent from the sources). -/
def ReviewViewSet.perform_create (listings : List Listing)
    (kwargs : List (String × String)) (input : ReviewInput) (newId : Nat)
    (request_user : Nat) : CreateReviewResult :=
  match dictGet kwargs "listing<-slug" with
  | none => CreateReviewResult.keyError "listing<-slug"
  | some slug =>
      match listings.find? (fun l => l.slug == slug) with
      | none => CreateReviewResult.doesNotExist
      | some listing =>
          CreateReviewResult.created
            { id := newId, author := request_user, listing := listing.id,
              content := input.content }

/-! Concrete records used by closed theorems and witnesses. -/

def confirmedBooking : Booking :=
  { id := 1, guest := 7, listing := 3, status := BookingStatus.CONFIRMED }

def pendingBooking : Booking :=
  { id := 2, guest := 7, listing := 3, status := BookingStatus.PENDING }

def otherGuestBooking : Booking :=
  { id := 4, guest := 8, listing := 3, status := BookingStatus.CONFIRMED }

def sampleBookingDb : List Booking :=
  [confirmedBooking, pendingBooking, otherGuestBooking]

/-! ## Theorems for claims C1 to C4 -/

/-- C1: the claim says cancelling a CONFIRMED booking persists status
CANCELLED and returns 200. On the code, the call on a CONFIRMED booking
does return 200 with the confirmation payload, but the record persisted by
`booking.save()` still has status CONFIRMED, because the mutation line is
a comparison (`==`), not an assignment: the transition to CANCELLED never
happens. Evaluated at the concrete CONFIRMED booking. -/
theorem C1_cancel_confirmed_returns_200_but_persists_CONFIRMED :
    (BookingViewset.cancel confirmedBooking).1 =
      HttpResult.response 200 "status" "Booking cancelled" ∧
    (BookingViewset.cancel confirmedBooking).2.status =
      BookingStatus.CONFIRMED ∧
    (BookingViewset.cancel confirmedBooking).2.status ≠
      BookingStatus.CANCELLED := by
  refine ⟨rfl, rfl, ?_⟩
  decide

/-- C2: the claim says cancel on a non-CONFIRMED booking returns HTTP 400
with the error payload and leaves the status unchanged. On the code, the
status is indeed left unchanged, but no 400 response is produced: the
failure branch evaluates the undefined constant `status.HTT_400_BAD_REQUEST`
and raises AttributeError. Evaluated at the concrete PENDING booking. -/
theorem C2_cancel_pending_raises_AttributeError :
    (BookingViewset.cancel pendingBooking).1 =
      HttpResult.pythonError "AttributeError" "HTT_400_BAD_REQUEST" ∧
    (BookingViewset.cancel pendingBooking).2 = pendingBooking := by
  exact ⟨rfl, rfl⟩

/-- C3: every Booking controller operation works on
`get_queryset = Booking.objects.filter(guest=request.user)`, so (i) every
booking it can see has `guest` equal to the requesting principal, (ii) any
booking a detail operation resolves has `guest` equal to the principal,
(iii) another principal's booking is filtered out of the queryable set, so
a detail request for it resolves to nothing (Http404), never to a distinct
forbidden response. -/
theorem C3_booking_operations_scoped_to_guest (db : List Booking) (u : Nat) :
    (∀ b ∈ BookingViewset.get_queryset db u, b.guest = u) ∧
    (∀ pk b, BookingViewset.get_object db u pk = some b → b.guest = u) ∧
    (∀ b ∈ db, b.guest ≠ u → b ∉ BookingViewset.get_queryset db u) := by
  refine ⟨?_, ?_, ?_⟩
  · intro b hb
    have := (List.mem_filter.mp hb).2
    simpa using this
  · intro pk b hb
    have hmem := List.mem_of_find?_eq_some hb
    have := (List.mem_filter.mp hmem).2
    simpa using this
  · intro b _ hne hmem
    exact hne (by simpa using (List.mem_filter.mp hmem).2)

/-- Closed instantiation of C3 at the sample data store: principal 7 sees
their own CONFIRMED booking, and the detail lookup of principal 8's
booking (id 4) by principal 7 resolves to nothing. -/
theorem C3_booking_operations_scoped_to_guest_witness :
    confirmedBooking.guest = 7 ∧
    BookingViewset.get_object sampleBookingDb 7 4 = none :=
  ⟨(C3_booking_operations_scoped_to_guest sampleBookingDb 7).1
      confirmedBooking (by decide),
    by decide⟩

/-- C4: `ListingViewset.perform_create` saves with
`owner=self.request.user` and `BookingViewset.perform_create` saves with
`guest=self.request.user`; the saved record's owner (resp. guest) is the
authenticated requester, whatever owner or guest value the request body
carried. -/
theorem C4_create_forces_owner_and_guest (newId : Nat) (li : ListingInput)
    (bi : BookingInput) (u : Nat) :
    (ListingViewset.perform_create newId li u).owner = u ∧
    (BookingViewset.perform_create newId bi u).guest = u :=
  ⟨rfl, rfl⟩

/-- Closed instantiation of C4: a client asking for owner 99 and guest 99
still gets records owned by and guested to the requesting principal 7. -/
theorem C4_create_forces_owner_and_guest_witness :
    (ListingViewset.perform_create 10
        { slug := "villa-1", owner := some 99 } 7).owner = 7 ∧
    (BookingViewset.perform_create 11
        { listing := 10, status := BookingStatus.PENDING, guest := some 99 }
        7).guest = 7 :=
  C4_create_forces_owner_and_guest 10
    { slug := "villa-1", owner := some 99 }
    { listing := 10, status := BookingStatus.PENDING, guest := some 99 } 7

def villa : Listing := { id := 5, slug := "villa-1", owner := 7 }

def cabin : Listing := { id := 6, slug := "cabin-2", owner := 8 }

def sampleListingDb : List Listing := [villa, cabin]

def villaReview : Review :=
  { id := 1, author := 9, listing := 5, content := "lovely" }

def cabinReview : Review :=
  { id := 2, author := 9, listing := 6, content := "cosy" }

def sampleReviewDb : List Review := [villaReview, cabinReview]

/-! ## Theorems for claims C5 to C10 -/

/-- C5: the claim says list and retrieve are open to any caller while
create, update and delete require authentication plus ownership, so an
unauthenticated POST /listings/ fails with 401/403. On the code,
`get_permissions` stores the action-dependent list in the misspelled
attribute `permissions_classes`, so the permission list actually applied
is the same for every action -- here the default [AllowAny] of an
undeclared `permission_classes` -- and the unauthenticated create request
is permitted. The list the source meant to apply would have rejected it. -/
theorem C5_listing_create_permission_discarded :
    (ListingViewset.get_permissions ListingViewset.init "create").1 =
      (ListingViewset.get_permissions ListingViewset.init "list").1 ∧
    (ListingViewset.get_permissions ListingViewset.init "create").1 =
      [Perm.AllowAny] ∧
    permitted (ListingViewset.get_permissions ListingViewset.init
      "create").1 false "POST" = true ∧
    ((ListingViewset.get_permissions ListingViewset.init
      "create").2.permissions_classes =
        some [Perm.IsAuthenticated, Perm.IsOwnerOrReadOnly] ∧
      permitted [Perm.IsAuthenticated, Perm.IsOwnerOrReadOnly] false
        "POST" = false) := by
  decide

/-- C6: the claim says a single-item retrieve uses
`ListingDetailSerializer` and every other action uses `ListingSerializer`.
On the code, the comparison in `get_serializer_class` is against the
misspelled literal "retireve", which is not the framework's action name
"retrieve", so retrieve -- like every real action -- gets the summary
`ListingSerializer` and the detail serializer is unreachable. -/
theorem C6_retrieve_gets_summary_serializer :
    ListingViewset.get_serializer_class "retrieve" =
      SerializerClass.ListingSerializer ∧
    ListingViewset.get_serializer_class "retrieve" ≠
      SerializerClass.ListingDetailSerializer ∧
    ListingViewset.get_serializer_class "list" =
      SerializerClass.ListingSerializer ∧
    ListingViewset.get_serializer_class "create" =
      SerializerClass.ListingSerializer ∧
    ListingViewset.get_serializer_class "update" =
      SerializerClass.ListingSerializer ∧
    ListingViewset.get_serializer_class "partial_update" =
      SerializerClass.ListingSerializer ∧
    ListingViewset.get_serializer_class "destroy" =
      SerializerClass.ListingSerializer := by
  refine ⟨rfl, ?_, rfl, rfl, rfl, rfl, rfl⟩
  decide

/-- C7: the claim says a review created under the nested reviews route is
associated to the listing named by the slug path segment and to the
requesting author. On the code, `perform_create` subscripts `self.kwargs`
with the key "listing<-slug"; the nested route supplies the parent
reference under "listing_pk" (and under no other name -- in particular not
"listing_slug", because of the `lookkup_field` misspelling in the parent
viewset), so every creation attempt raises KeyError and no review is
created at all. Evaluated at the concrete route kwargs for parent path
segment "5". -/
theorem C7_review_create_raises_KeyError :
    nestedRouteKwargs "5" = [("listing_pk", "5")] ∧
    ReviewViewSet.perform_create sampleListingDb (nestedRouteKwargs "5")
      { content := "nice stay", author := some 9 } 3 7 =
      CreateReviewResult.keyError "listing<-slug" ∧
    dictGet (nestedRouteKwargs "5") "listing<-slug" = none ∧
    dictGet (nestedRouteKwargs "5") "listing_slug" = none := by
  decide

/-- C8: the claim says a nested list or retrieve sees exactly the reviews
whose listing's slug equals the path segment. On the code, the nested
route's kwarg is named "listing_pk" -- derived from the parent viewset's
effective lookup field "pk", itself a consequence of the `lookkup_field`
misspelling -- so the subscript `self.kwargs["listing_slug"]` in
`get_queryset` raises KeyError on every request to the nested collection,
and the slug-scoped review set is never produced. Evaluated at the
concrete route kwargs for parent path segment "5" over the sample data
store. -/
theorem C8_review_queryset_raises_KeyError :
    ReviewViewSet.get_queryset sampleListingDb sampleReviewDb
      (nestedRouteKwargs "5") = QuerysetResult.keyError "listing_slug" ∧
    nestedRouteKwargs "5" = [("listing_pk", "5")] ∧
    dictGet (nestedRouteKwargs "5") "listing_slug" = none := by
  decide

/-- C9: the claim says Review write operations require authentication plus
the `IsOwnerOrReadOnly` ownership check. On the code, the class body
assigns that list to the misspelled attribute `permission_class`, which
the framework never reads; the attribute it does read,
`permission_classes`, is undeclared and resolves to the default
[AllowAny], so an unauthenticated write request is permitted. The list the
source meant to declare would have rejected it. -/
theorem C9_review_write_permission_discarded :
    ReviewViewSet.get_permissions ReviewViewSet.init = [Perm.AllowAny] ∧
    permitted (ReviewViewSet.get_permissions ReviewViewSet.init) false
      "POST" = true ∧
    (ReviewViewSet.init.permission_class =
        [Perm.IsAuthenticatedOrReadOnly, Perm.IsOwnerOrReadOnly] ∧
      permitted ReviewViewSet.init.permission_class false "POST" =
        false) := by
  refine ⟨rfl, rfl, rfl, rfl⟩

/-- C10: the class attribute meant to select slug lookup is spelled
`lookkup_field`, so `getattr(view, "lookup_field")` falls back to the
default "pk" and a single-item Listing request resolves the object by its
numeric primary key, not by its slug: the URL argument "villa-1" matches
nothing, while the numeric argument "5" resolves the listing whose slug is
"villa-1". -/
theorem C10_listing_lookup_is_by_pk_not_slug :
    effectiveLookupField ListingViewset.classAttributes = "pk" ∧
    effectiveLookupField ListingViewset.classAttributes ≠ "slug" ∧
    dictGet ListingViewset.classAttributes "lookkup_field" =
      some "slug" ∧
    ListingViewset.get_object sampleListingDb "villa-1" = none ∧
    ListingViewset.get_object sampleListingDb "5" = some villa := by
  refine ⟨rfl, ?_, rfl, ?_, ?_⟩ <;> decide

end AlxTravel
